import Mathlib

/-!
Shallow embedding of `src/LevServerSite/snake/game.js` (the snake game loop).

The game's mutable globals (`snake`, `snakeDir`, `score`, `foodCoords`, the
interval handle `game`, the frame rate, the message header, and the document's
keydown-listener registry) are gathered into a `GameState` record; each JS
function becomes a state-passing Lean function.  Canvas drawing calls are pure
output and have no effect on this state, so they are omitted.  `Math.random()`
values are passed in explicitly as rationals in `[0, 1)`.
-/

namespace SnakeGame

/-- A grid coordinate in pixel units: the `{x, y}` objects of game.js
(snake segments, food coordinates, the new head). -/
structure Pos where
  x : ℤ
  y : ℤ
deriving DecidableEq, Repr

/-- The four direction strings `"left" | "up" | "right" | "down"` that
`snakeDir` can hold once set. -/
inductive Dir
  | left
  | up
  | right
  | down
deriving DecidableEq, Repr

/-! Game constants (`const` block of game.js). -/

def arenaWidthBoxes : ℤ := 17
def arenaHeightBoxes : ℤ := 15
def arenaX0Boxes : ℤ := 1
def arenaY0Boxes : ℤ := 3
def boxSidePxls : ℤ := 32

/-- The whole mutable state of the script.
`game : Bool` models the interval handle (`true` = a timer is set,
`false` = `null`/`undefined`); `message`/`messageColor` model the
`game-message-id` header; `keydownListeners` models the document's registry of
keydown listeners (ids of registered listener functions). -/
structure GameState where
  snake : List Pos
  snakeDir : Option Dir
  score : ℕ
  foodCoords : Pos
  game : Bool
  message : String
  messageColor : String
  keydownListeners : List ℕ
  gameFrameRateHz : ℤ
deriving Repr

/-- Id of the anonymous `direction` keydown handler registered by
`document.addEventListener("keydown", function direction(event) {...})`. -/
def directionListenerId : ℕ := 0

/-- The value of the JS global `keyDownListener`.  In game.js it is
`const keyDownListener = document.addEventListener(...)`; `addEventListener`
returns `undefined`, so the stored value is `undefined` (`none`), NOT a
reference to the `direction` handler. -/
def keyDownListener : Option ℕ := none

/-- `document.removeEventListener('keydown', handle)`: removes the listener
named by `handle` from the registry; passing `undefined` matches no listener
and removes nothing. -/
def removeEventListener (handle : Option ℕ) (reg : List ℕ) : List ℕ :=
  match handle with
  | none => reg
  | some h => reg.filter (fun l => l ≠ h)

/-- `setGameMessage(message, color)`: writes the message header. -/
def setGameMessage (message : String) (color : String) (s : GameState) : GameState :=
  { s with message := message, messageColor := color }

/-- `stopGame(reasonForStopping)`: clears the interval (`game = null`), shows
the reason in red, then calls
`document.removeEventListener('keydown', keyDownListener)`. -/
def stopGame (reasonForStopping : String) (s : GameState) : GameState :=
  let s1 := setGameMessage reasonForStopping "red" { s with game := false }
  { s1 with keydownListeners := removeEventListener keyDownListener s1.keydownListeners }

/-- `generateFoodCoords()`, with the two `Math.random()` results passed in as
`rx, ry`:
`x = Math.floor(random * arenaWidthBoxes + arenaX0Boxes) * boxSidePxls`,
`y = Math.floor(random * arenaHeightBoxes + arenaY0Boxes) * boxSidePxls`. -/
def generateFoodCoords (rx ry : ℚ) : Pos :=
  { x := ⌊rx * (arenaWidthBoxes : ℚ) + (arenaX0Boxes : ℚ)⌋ * boxSidePxls
    y := ⌊ry * (arenaHeightBoxes : ℚ) + (arenaY0Boxes : ℚ)⌋ * boxSidePxls }

/-- The `direction(event)` keydown handler body, given `event.keyCode`.
The four updates are sequential `if` statements, guarded by the
reverse-direction checks; the first chosen direction also sets the
"Yum yum carrots!" message (`!snakeDir` is true only while `snakeDir` is
still `undefined`). -/
def direction (code : ℕ) (s : GameState) : GameState :=
  if code = 37 ∨ code = 38 ∨ code = 39 ∨ code = 40 then
    let s := if s.snakeDir = none then setGameMessage "Yum yum carrots!" "green" s else s
    let s := if code = 37 ∧ s.snakeDir ≠ some Dir.right then { s with snakeDir := some Dir.left } else s
    let s := if code = 38 ∧ s.snakeDir ≠ some Dir.down then { s with snakeDir := some Dir.up } else s
    let s := if code = 39 ∧ s.snakeDir ≠ some Dir.left then { s with snakeDir := some Dir.right } else s
    let s := if code = 40 ∧ s.snakeDir ≠ some Dir.up then { s with snakeDir := some Dir.down } else s
    s
  else s

/-- A keydown event reaching the document: the `direction` handler body runs
only while that handler is still in the registry. -/
def dispatchKeydown (code : ℕ) (s : GameState) : GameState :=
  if directionListenerId ∈ s.keydownListeners then direction code s else s

/-- `tryStartingGame()`: starts the interval timer and shows the start
message, but only once both images are complete and no game is running. -/
def tryStartingGame (foodComplete groundComplete : Bool) (s : GameState) : GameState :=
  if foodComplete = true ∧ groundComplete = true ∧ s.game = false then
    setGameMessage "Press an arrow key to start moving!" "green" { s with game := true }
  else s

/-- The `speedSlider.onchange` handler: set the new frame rate from the slider
value, `stopGame()` (default reason `"unknown"`), `tryStartingGame()`. -/
def speedSliderOnChange (sliderValue : ℤ) (foodComplete groundComplete : Bool)
    (s : GameState) : GameState :=
  let s := { s with gameFrameRateHz := 25 - sliderValue }
  let s := stopGame "unknown" s
  tryStartingGame foodComplete groundComplete s

/-- The self-collision message passed to `stopGame` in `snakeStrikesSelf`
(the extra `'red'` argument there is dropped: `stopGame` takes one
parameter). -/
def selfMsg : String := "Oh no! Snake ate itself!"

/-- The wall-collision message passed to `stopGame` in `drawGame`. -/
def wallMsg : String := "Oh no! Snake ran into the wall and died!"

/-- `snakeStrikesSelf()`: returns early if the snake has at most one segment;
otherwise compares `head = snake[0]` with every element of
`body = snake.slice(1)` and calls `stopGame('Oh no! Snake ate itself!', 'red')`
on every exact coordinate match. -/
def snakeStrikesSelf (s : GameState) : GameState :=
  if s.snake.length ≤ 1 then s
  else
    match s.snake with
    | [] => s
    | head :: body =>
      body.foldl
        (fun st seg => if head.x = seg.x ∧ head.y = seg.y then stopGame selfMsg st else st) s

/-- The four boundary-violation booleans of `drawGame`, computed from a head
coordinate `(snakeX, snakeY)`:
`isSnakeWest`, `isSnakeEast`, `isSnakeNorth`, `isSnakeSouth`, or-ed. -/
def wallHit (snakeX snakeY : ℤ) : Bool :=
  let isSnakeWest : Bool := decide (snakeX < boxSidePxls)
  let isSnakeEast : Bool := decide (boxSidePxls * 17 < snakeX)
  let isSnakeNorth : Bool := decide (snakeY < 3 * boxSidePxls)
  let isSnakeSouth : Bool := decide (snakeY > boxSidePxls * 17)
  isSnakeWest || isSnakeEast || isSnakeNorth || isSnakeSouth

/-- The head-update block of `drawGame`: four sequential `if` statements on
`snakeDir` (a missing direction moves nothing), producing the `newHead`
coordinate. -/
def moveHead (snakeDir : Option Dir) (snakeX snakeY : ℤ) : Pos :=
  let snakeX := if snakeDir = some Dir.left then snakeX - boxSidePxls else snakeX
  let snakeX := if snakeDir = some Dir.right then snakeX + boxSidePxls else snakeX
  let snakeY := if snakeDir = some Dir.up then snakeY - boxSidePxls else snakeY
  let snakeY := if snakeDir = some Dir.down then snakeY + boxSidePxls else snakeY
  { x := snakeX, y := snakeY }

/-- The eat-or-pop block of `drawGame`: if the (pre-move) head coordinate
equals `foodCoords`, increment the score and regenerate the food; otherwise
`snake.pop()` removes the tail segment. -/
def eatOrPop (rx ry : ℚ) (snakeX snakeY : ℤ) (s : GameState) : GameState :=
  if snakeX = s.foodCoords.x ∧ snakeY = s.foodCoords.y then
    { s with score := s.score + 1, foodCoords := generateFoodCoords rx ry }
  else
    { s with snake := s.snake.dropLast }

/-- The boundary block of `drawGame`: stop the game with the wall message when
any of the four boundary booleans (computed from the pre-move head) holds. -/
def boundaryCheck (snakeX snakeY : ℤ) (s : GameState) : GameState :=
  if wallHit snakeX snakeY then stopGame wallMsg s else s

/-- Body of `drawGame()` once `snake[0]` has been read into
`(snakeX, snakeY) = (hd.x, hd.y)`: eat-or-pop, boundary check, head move,
`snake.unshift(newHead)`, `snakeStrikesSelf()`.  The drawing calls at the top
of `drawGame` touch only the canvas and are omitted. -/
def drawGameAux (rx ry : ℚ) (hd : Pos) (s : GameState) : GameState :=
  let s1 := eatOrPop rx ry hd.x hd.y s
  let s2 := boundaryCheck hd.x hd.y s1
  let newHead := moveHead s.snakeDir hd.x hd.y
  snakeStrikesSelf { s2 with snake := newHead :: s2.snake }

/-- One tick of the game loop: `drawGame()`, with this tick's two
`Math.random()` draws passed as `rx, ry`.  In the source `snake[0]` is read
unconditionally; an empty snake would throw, and never occurs (the snake
always keeps at least one segment), so the empty case is mapped to the
unchanged state. -/
def drawGame (rx ry : ℚ) (s : GameState) : GameState :=
  match s.snake with
  | [] => s
  | hd :: _ => drawGameAux rx ry hd s

/-- The initial one-segment snake: `[{x: 9*boxSidePxls, y: 10*boxSidePxls}]`. -/
def initialSnake : List Pos := [{ x := 9 * boxSidePxls, y := 10 * boxSidePxls }]

/-- The script's state after the top-level statements ran: initial snake,
no direction, score `0`, food from the first `generateFoodCoords()` call,
no timer yet, the `direction` keydown handler registered, frame rate `10`. -/
def initialState (rx ry : ℚ) : GameState :=
  { snake := initialSnake
    snakeDir := none
    score := 0
    foodCoords := generateFoodCoords rx ry
    game := false
    message := ""
    messageColor := ""
    keydownListeners := [directionListenerId]
    gameFrameRateHz := 10 }

/-- The events the page can deliver to the script after load: a timer tick
(with its two random draws), a keydown, or a speed-slider change. -/
inductive Event
  | tick (rx ry : ℚ)
  | keydown (code : ℕ)
  | sliderChange (value : ℤ) (foodComplete groundComplete : Bool)

/-- Run one event. -/
def stepEvent (e : Event) (s : GameState) : GameState :=
  match e with
  | .tick rx ry => drawGame rx ry s
  | .keydown c => dispatchKeydown c s
  | .sliderChange v f g => speedSliderOnChange v f g s

/-- Run a sequence of events (single-threaded, in order). -/
def run (es : List Event) (s : GameState) : GameState :=
  match es with
  | [] => s
  | e :: rest => run rest (stepEvent e s)

/-- `true` when the head coordinate matches some element of `body`, the loop
condition checked by `snakeStrikesSelf`. -/
def collides (head : Pos) (body : List Pos) : Bool :=
  body.any (fun seg => decide (head.x = seg.x ∧ head.y = seg.y))

/-- The reverse of a direction (left vs right, up vs down). -/
def opposite : Dir → Dir
  | .left => .right
  | .right => .left
  | .up => .down
  | .down => .up

/-- The `keyCode` of the arrow key requesting a direction, from the
`keys = { left: 37, up: 38, right: 39, down: 40 }` table. -/
def keyCodeOf : Dir → ℕ
  | .left => 37
  | .up => 38
  | .right => 39
  | .down => 40

/-! Concrete test states used to instantiate hypotheses. -/

/-- A running game in its initial position (head at cell `(9, 10)`), food at
cell `(1, 3)`, no direction chosen. -/
def exBaseState : GameState :=
  { snake := initialSnake
    snakeDir := none
    score := 0
    foodCoords := { x := boxSidePxls, y := 3 * boxSidePxls }
    game := true
    message := ""
    messageColor := ""
    keydownListeners := [directionListenerId]
    gameFrameRateHz := 10 }

/-- A running game heading left. -/
def exLeftState : GameState :=
  { exBaseState with snakeDir := some Dir.left }

/-- A running game whose head sits west of the arena at `(0, 320)` while the
body doubles back, so that this tick hits the wall and then the moved head
lands on a body segment. -/
def exWallState : GameState :=
  { snake := [{ x := 0, y := 320 }, { x := 32, y := 320 }, { x := 64, y := 320 }]
    snakeDir := some Dir.right
    score := 0
    foodCoords := { x := 512, y := 512 }
    game := true
    message := ""
    messageColor := ""
    keydownListeners := [directionListenerId]
    gameFrameRateHz := 10 }

/-! ### Basic lemmas about the embedding -/

@[simp] lemma stopGame_snake (m : String) (s : GameState) :
    (stopGame m s).snake = s.snake := rfl

@[simp] lemma stopGame_score (m : String) (s : GameState) :
    (stopGame m s).score = s.score := rfl

@[simp] lemma stopGame_foodCoords (m : String) (s : GameState) :
    (stopGame m s).foodCoords = s.foodCoords := rfl

@[simp] lemma stopGame_snakeDir (m : String) (s : GameState) :
    (stopGame m s).snakeDir = s.snakeDir := rfl

@[simp] lemma stopGame_game (m : String) (s : GameState) :
    (stopGame m s).game = false := rfl

@[simp] lemma stopGame_message (m : String) (s : GameState) :
    (stopGame m s).message = m := rfl

/-- `removeEventListener` is called with `keyDownListener = undefined`, so the
registry is untouched. -/
@[simp] lemma stopGame_keydownListeners (m : String) (s : GameState) :
    (stopGame m s).keydownListeners = s.keydownListeners := rfl

lemma stopGame_stopGame (m : String) (s : GameState) :
    stopGame m (stopGame m s) = stopGame m s := rfl

lemma collides_cons (head b : Pos) (rest : List Pos) :
    collides head (b :: rest)
      = (decide (head.x = b.x ∧ head.y = b.y) || collides head rest) := by
  simp [collides]

/-- The `for` loop of `snakeStrikesSelf` calls `stopGame` once per matching
body segment; since `stopGame` with a fixed message is idempotent, the loop
amounts to one conditional `stopGame`. -/
lemma strike_foldl (head : Pos) (body : List Pos) (st : GameState) :
    List.foldl
        (fun st seg => if head.x = seg.x ∧ head.y = seg.y then stopGame selfMsg st else st)
        st body
      = if collides head body then stopGame selfMsg st else st := by
  induction body generalizing st with
  | nil => simp [collides]
  | cons b rest ih =>
    by_cases hb : head.x = b.x ∧ head.y = b.y
    · rw [List.foldl_cons, if_pos hb, ih, collides_cons, decide_eq_true hb]
      simp [stopGame_stopGame]
    · rw [List.foldl_cons, if_neg hb, ih, collides_cons, decide_eq_false hb]
      simp

lemma snakeStrikesSelf_spec (s : GameState) (head : Pos) (body : List Pos)
    (h : s.snake = head :: body) :
    snakeStrikesSelf s = if collides head body then stopGame selfMsg s else s := by
  unfold snakeStrikesSelf
  rw [h]
  cases body with
  | nil => simp [collides]
  | cons b rest =>
    have hlen : ¬ (head :: b :: rest).length ≤ 1 := by simp
    rw [if_neg hlen]
    exact strike_foldl head (b :: rest) s

lemma snakeStrikesSelf_proj (s : GameState) :
    (snakeStrikesSelf s).snake = s.snake ∧ (snakeStrikesSelf s).score = s.score ∧
    (snakeStrikesSelf s).foodCoords = s.foodCoords ∧
    (snakeStrikesSelf s).snakeDir = s.snakeDir ∧
    (snakeStrikesSelf s).keydownListeners = s.keydownListeners := by
  cases hs : s.snake with
  | nil =>
    unfold snakeStrikesSelf
    rw [hs]
    simp [hs]
  | cons head body =>
    rw [snakeStrikesSelf_spec s head body hs]
    split <;> simp [hs]

@[simp] lemma boundaryCheck_snake (x y : ℤ) (s : GameState) :
    (boundaryCheck x y s).snake = s.snake := by
  unfold boundaryCheck; split <;> simp

@[simp] lemma boundaryCheck_score (x y : ℤ) (s : GameState) :
    (boundaryCheck x y s).score = s.score := by
  unfold boundaryCheck; split <;> simp

@[simp] lemma boundaryCheck_foodCoords (x y : ℤ) (s : GameState) :
    (boundaryCheck x y s).foodCoords = s.foodCoords := by
  unfold boundaryCheck; split <;> simp

@[simp] lemma boundaryCheck_snakeDir (x y : ℤ) (s : GameState) :
    (boundaryCheck x y s).snakeDir = s.snakeDir := by
  unfold boundaryCheck; split <;> simp

@[simp] lemma eatOrPop_snakeDir (rx ry : ℚ) (x y : ℤ) (s : GameState) :
    (eatOrPop rx ry x y s).snakeDir = s.snakeDir := by
  unfold eatOrPop; split <;> rfl

@[simp] lemma eatOrPop_game (rx ry : ℚ) (x y : ℤ) (s : GameState) :
    (eatOrPop rx ry x y s).game = s.game := by
  unfold eatOrPop; split <;> rfl

@[simp] lemma eatOrPop_message (rx ry : ℚ) (x y : ℤ) (s : GameState) :
    (eatOrPop rx ry x y s).message = s.message := by
  unfold eatOrPop; split <;> rfl

@[simp] lemma eatOrPop_keydownListeners (rx ry : ℚ) (x y : ℤ) (s : GameState) :
    (eatOrPop rx ry x y s).keydownListeners = s.keydownListeners := by
  unfold eatOrPop; split <;> rfl

/-- Unfolding one tick at a non-empty snake into its four phases. -/
lemma drawGame_eq (rx ry : ℚ) (s : GameState) (hd : Pos) (rest : List Pos)
    (h : s.snake = hd :: rest) :
    drawGame rx ry s =
      snakeStrikesSelf
        { boundaryCheck hd.x hd.y (eatOrPop rx ry hd.x hd.y s) with
          snake := moveHead s.snakeDir hd.x hd.y ::
            (boundaryCheck hd.x hd.y (eatOrPop rx ry hd.x hd.y s)).snake } := by
  unfold drawGame
  rw [h]
  rfl

lemma drawGame_snake (rx ry : ℚ) (s : GameState) (hd : Pos) (rest : List Pos)
    (h : s.snake = hd :: rest) :
    (drawGame rx ry s).snake
      = moveHead s.snakeDir hd.x hd.y :: (eatOrPop rx ry hd.x hd.y s).snake := by
  rw [drawGame_eq rx ry s hd rest h]
  rw [(snakeStrikesSelf_proj _).1]
  simp

lemma drawGame_score (rx ry : ℚ) (s : GameState) (hd : Pos) (rest : List Pos)
    (h : s.snake = hd :: rest) :
    (drawGame rx ry s).score = (eatOrPop rx ry hd.x hd.y s).score := by
  rw [drawGame_eq rx ry s hd rest h]
  rw [(snakeStrikesSelf_proj _).2.1]
  simp

lemma drawGame_foodCoords (rx ry : ℚ) (s : GameState) (hd : Pos) (rest : List Pos)
    (h : s.snake = hd :: rest) :
    (drawGame rx ry s).foodCoords = (eatOrPop rx ry hd.x hd.y s).foodCoords := by
  rw [drawGame_eq rx ry s hd rest h]
  rw [(snakeStrikesSelf_proj _).2.2.1]
  simp

lemma direction_snake (c : ℕ) (s : GameState) : (direction c s).snake = s.snake := by
  unfold direction setGameMessage
  repeat' first
    | rfl
    | split
    | dsimp only

lemma direction_score (c : ℕ) (s : GameState) : (direction c s).score = s.score := by
  unfold direction setGameMessage
  repeat' first
    | rfl
    | split
    | dsimp only

lemma dispatchKeydown_snake (c : ℕ) (s : GameState) :
    (dispatchKeydown c s).snake = s.snake := by
  unfold dispatchKeydown
  split
  · exact direction_snake c s
  · rfl

lemma dispatchKeydown_score (c : ℕ) (s : GameState) :
    (dispatchKeydown c s).score = s.score := by
  unfold dispatchKeydown
  split
  · exact direction_score c s
  · rfl

@[simp] lemma tryStartingGame_snake (f g : Bool) (s : GameState) :
    (tryStartingGame f g s).snake = s.snake := by
  unfold tryStartingGame setGameMessage
  split <;> rfl

@[simp] lemma tryStartingGame_score (f g : Bool) (s : GameState) :
    (tryStartingGame f g s).score = s.score := by
  unfold tryStartingGame setGameMessage
  split <;> rfl

@[simp] lemma tryStartingGame_snakeDir (f g : Bool) (s : GameState) :
    (tryStartingGame f g s).snakeDir = s.snakeDir := by
  unfold tryStartingGame setGameMessage
  split <;> rfl

@[simp] lemma speedSliderOnChange_snake (v : ℤ) (f g : Bool) (s : GameState) :
    (speedSliderOnChange v f g s).snake = s.snake := by
  unfold speedSliderOnChange
  simp

@[simp] lemma speedSliderOnChange_score (v : ℤ) (f g : Bool) (s : GameState) :
    (speedSliderOnChange v f g s).score = s.score := by
  unfold speedSliderOnChange
  simp

@[simp] lemma speedSliderOnChange_snakeDir (v : ℤ) (f g : Bool) (s : GameState) :
    (speedSliderOnChange v f g s).snakeDir = s.snakeDir := by
  unfold speedSliderOnChange
  simp

lemma stepEvent_snake_len (e : Event) (s : GameState) (h : 1 ≤ s.snake.length) :
    1 ≤ (stepEvent e s).snake.length := by
  cases e with
  | tick rx ry =>
    cases hs : s.snake with
    | nil => rw [hs] at h; simp at h
    | cons hd rest =>
      show 1 ≤ (drawGame rx ry s).snake.length
      rw [drawGame_snake rx ry s hd rest hs]
      simp
  | keydown c =>
    show 1 ≤ (dispatchKeydown c s).snake.length
    rw [dispatchKeydown_snake]
    exact h
  | sliderChange v f g =>
    show 1 ≤ (speedSliderOnChange v f g s).snake.length
    rw [speedSliderOnChange_snake]
    exact h

lemma run_snake_len (es : List Event) (s : GameState) (h : 1 ≤ s.snake.length) :
    1 ≤ (run es s).snake.length := by
  induction es generalizing s with
  | nil => exact h
  | cons e rest ih => exact ih (stepEvent e s) (stepEvent_snake_len e s h)

lemma stepEvent_score_mono (e : Event) (s : GameState) :
    s.score ≤ (stepEvent e s).score := by
  cases e with
  | tick rx ry =>
    cases hs : s.snake with
    | nil =>
      show s.score ≤ (drawGame rx ry s).score
      unfold drawGame
      rw [hs]
    | cons hd rest =>
      show s.score ≤ (drawGame rx ry s).score
      rw [drawGame_score rx ry s hd rest hs]
      unfold eatOrPop
      split <;> simp
  | keydown c =>
    show s.score ≤ (dispatchKeydown c s).score
    rw [dispatchKeydown_score]
  | sliderChange v f g =>
    show s.score ≤ (speedSliderOnChange v f g s).score
    rw [speedSliderOnChange_score]

lemma run_score_mono (es : List Event) (s : GameState) :
    s.score ≤ (run es s).score := by
  induction es generalizing s with
  | nil => exact le_refl _
  | cons e rest ih =>
    exact le_trans (stepEvent_score_mono e s) (ih (stepEvent e s))

/-! ### Claim theorems -/

/-- C1: On every tick of the game loop with a non-empty snake, exactly one of
the two outcomes occurs: when the pre-move head coordinate equals the food
coordinate, the score is incremented by 1 and a new food coordinate is
generated while no tail segment is removed (the tick's snake keeps all old
segments below the new head); otherwise the score and the food are unchanged
and the last (tail) segment is removed. -/
theorem C1_eat_xor_pop (rx ry : ℚ) (s : GameState) (hd : Pos) (rest : List Pos)
    (h : s.snake = hd :: rest) :
    ((hd.x = s.foodCoords.x ∧ hd.y = s.foodCoords.y) →
       (drawGame rx ry s).score = s.score + 1 ∧
       (drawGame rx ry s).foodCoords = generateFoodCoords rx ry ∧
       (drawGame rx ry s).snake.tail = s.snake) ∧
    (¬ (hd.x = s.foodCoords.x ∧ hd.y = s.foodCoords.y) →
       (drawGame rx ry s).score = s.score ∧
       (drawGame rx ry s).foodCoords = s.foodCoords ∧
       (drawGame rx ry s).snake.tail = s.snake.dropLast) := by
  constructor
  · intro heat
    rw [drawGame_score rx ry s hd rest h, drawGame_foodCoords rx ry s hd rest h,
        drawGame_snake rx ry s hd rest h]
    unfold eatOrPop
    rw [if_pos heat]
    simp
  · intro hmiss
    rw [drawGame_score rx ry s hd rest h, drawGame_foodCoords rx ry s hd rest h,
        drawGame_snake rx ry s hd rest h]
    unfold eatOrPop
    rw [if_neg hmiss]
    simp

theorem C1_eat_xor_pop_witness :
    exBaseState.snake = ⟨288, 320⟩ :: [] ∧
    ¬ ((288 : ℤ) = exBaseState.foodCoords.x ∧ (320 : ℤ) = exBaseState.foodCoords.y) ∧
    ((drawGame 0 0 exBaseState).score = exBaseState.score ∧
     (drawGame 0 0 exBaseState).foodCoords = exBaseState.foodCoords ∧
     (drawGame 0 0 exBaseState).snake.tail = exBaseState.snake.dropLast) :=
  ⟨by decide, by decide,
   (C1_eat_xor_pop 0 0 exBaseState ⟨288, 320⟩ [] (by decide)).2 (by decide)⟩

/-- C5: For every pair of values the random source can produce (rationals in
`[0, 1)`), the food coordinate returned by `generateFoodCoords` lies, in cell
units, strictly within `[arenaX0Boxes, arenaX0Boxes + arenaWidthBoxes) ×
[arenaY0Boxes, arenaY0Boxes + arenaHeightBoxes)`, i.e. x-cell in `[1, 18)` and
y-cell in `[3, 18)`. -/
theorem C5_food_in_arena (rx ry : ℚ) (hx0 : 0 ≤ rx) (hx1 : rx < 1)
    (hy0 : 0 ≤ ry) (hy1 : ry < 1) :
    ∃ cx cy : ℤ,
      (generateFoodCoords rx ry).x = cx * boxSidePxls ∧
      (generateFoodCoords rx ry).y = cy * boxSidePxls ∧
      arenaX0Boxes ≤ cx ∧ cx < arenaX0Boxes + arenaWidthBoxes ∧
      arenaY0Boxes ≤ cy ∧ cy < arenaY0Boxes + arenaHeightBoxes := by
  refine ⟨⌊rx * (arenaWidthBoxes : ℚ) + (arenaX0Boxes : ℚ)⌋,
          ⌊ry * (arenaHeightBoxes : ℚ) + (arenaY0Boxes : ℚ)⌋, rfl, rfl, ?_, ?_, ?_, ?_⟩
  · unfold arenaX0Boxes arenaWidthBoxes
    refine Int.le_floor.mpr ?_
    push_cast
    nlinarith
  · unfold arenaX0Boxes arenaWidthBoxes
    refine Int.floor_lt.mpr ?_
    push_cast
    nlinarith
  · unfold arenaY0Boxes arenaHeightBoxes
    refine Int.le_floor.mpr ?_
    push_cast
    nlinarith
  · unfold arenaY0Boxes arenaHeightBoxes
    refine Int.floor_lt.mpr ?_
    push_cast
    nlinarith

theorem C5_food_in_arena_witness :
    (0 : ℚ) ≤ 1/2 ∧ (1/2 : ℚ) < 1 ∧
    (∃ cx cy : ℤ,
      (generateFoodCoords (1/2) (1/2)).x = cx * boxSidePxls ∧
      (generateFoodCoords (1/2) (1/2)).y = cy * boxSidePxls ∧
      arenaX0Boxes ≤ cx ∧ cx < arenaX0Boxes + arenaWidthBoxes ∧
      arenaY0Boxes ≤ cy ∧ cy < arenaY0Boxes + arenaHeightBoxes) :=
  ⟨by norm_num, by norm_num,
   C5_food_in_arena (1/2) (1/2) (by norm_num) (by norm_num) (by norm_num) (by norm_num)⟩

/-- C6: For every current direction value, a keydown requesting the exact
opposite direction (left vs right, up vs down) leaves `snakeDir` unchanged. -/
theorem C6_reverse_rejected (s : GameState) (d : Dir) (h : s.snakeDir = some d) :
    (direction (keyCodeOf (opposite d)) s).snakeDir = some d := by
  cases d <;> simp [direction, keyCodeOf, opposite, setGameMessage, h]

theorem C6_reverse_rejected_witness :
    exLeftState.snakeDir = some Dir.left ∧
    (direction (keyCodeOf (opposite Dir.left)) exLeftState).snakeDir = some Dir.left :=
  ⟨by decide, C6_reverse_rejected exLeftState Dir.left (by decide)⟩

/-- C7: On a tick that runs while `snakeDir` is still unset, the snake head
position at the end of the tick equals the head position at the start. -/
theorem C7_no_direction_no_move (rx ry : ℚ) (s : GameState) (hd : Pos)
    (rest : List Pos) (h : s.snake = hd :: rest) (hdir : s.snakeDir = none) :
    (drawGame rx ry s).snake.head? = some hd := by
  rw [drawGame_snake rx ry s hd rest h]
  simp [moveHead, hdir]

theorem C7_no_direction_no_move_witness :
    exBaseState.snake = ⟨288, 320⟩ :: [] ∧ exBaseState.snakeDir = none ∧
    (drawGame 0 0 exBaseState).snake.head? = some ⟨288, 320⟩ :=
  ⟨by decide, by decide,
   C7_no_direction_no_move 0 0 exBaseState ⟨288, 320⟩ [] (by decide) (by decide)⟩

/-- C2: On every tick, the four boundary-violation booleans are computed from
the head position `hd` as it was before the direction step (`wallHit hd.x
hd.y`); when any of them holds, the game transitions to the stopped state with
the wall-death message at the boundary check (and the tick ends with the timer
cleared); when none holds the boundary check changes nothing; and the
direction step is applied only after this check — the tick's new head is
`moveHead` applied to the pre-check coordinate. -/
theorem C2_boundary_before_move (rx ry : ℚ) (s : GameState) (hd : Pos)
    (rest : List Pos) (h : s.snake = hd :: rest) :
    (wallHit hd.x hd.y = true →
       (boundaryCheck hd.x hd.y (eatOrPop rx ry hd.x hd.y s)).game = false ∧
       (boundaryCheck hd.x hd.y (eatOrPop rx ry hd.x hd.y s)).message = wallMsg ∧
       (drawGame rx ry s).game = false) ∧
    (wallHit hd.x hd.y = false →
       boundaryCheck hd.x hd.y (eatOrPop rx ry hd.x hd.y s)
         = eatOrPop rx ry hd.x hd.y s) ∧
    (drawGame rx ry s).snake.head? = some (moveHead s.snakeDir hd.x hd.y) := by
  refine ⟨?_, ?_, ?_⟩
  · intro hw
    have hbc : boundaryCheck hd.x hd.y (eatOrPop rx ry hd.x hd.y s)
        = stopGame wallMsg (eatOrPop rx ry hd.x hd.y s) := by
      unfold boundaryCheck
      rw [hw]
      rfl
    rw [hbc]
    refine ⟨rfl, rfl, ?_⟩
    rw [drawGame_eq rx ry s hd rest h,
        snakeStrikesSelf_spec _ (moveHead s.snakeDir hd.x hd.y)
          ((boundaryCheck hd.x hd.y (eatOrPop rx ry hd.x hd.y s)).snake) rfl]
    split
    · simp
    · have hg : (boundaryCheck hd.x hd.y (eatOrPop rx ry hd.x hd.y s)).game = false := by
        rw [hbc]
        rfl
      exact hg
  · intro hw
    unfold boundaryCheck
    rw [hw]
    rfl
  · rw [drawGame_snake rx ry s hd rest h]
    rfl

theorem C2_boundary_before_move_witness :
    exWallState.snake = ⟨0, 320⟩ :: [⟨32, 320⟩, ⟨64, 320⟩] ∧
    wallHit 0 320 = true ∧
    ((boundaryCheck 0 320 (eatOrPop 0 0 0 320 exWallState)).game = false ∧
     (boundaryCheck 0 320 (eatOrPop 0 0 0 320 exWallState)).message = wallMsg ∧
     (drawGame 0 0 exWallState).game = false) := by
  have h := C2_boundary_before_move 0 0 exWallState ⟨0, 320⟩ [⟨32, 320⟩, ⟨64, 320⟩]
    (by decide)
  exact ⟨by decide, by decide, h.1 (by decide)⟩

/-- C3: On every tick, once the new head has been prepended, the game
transitions to the stopped state with the self-collision message exactly when
the new head coordinate equals (in both x and y) the coordinate of at least
one non-head segment; otherwise the self-collision check changes nothing. -/
theorem C3_self_collision_iff (rx ry : ℚ) (s : GameState) (hd : Pos)
    (rest : List Pos) (h : s.snake = hd :: rest) :
    (collides (moveHead s.snakeDir hd.x hd.y)
        (boundaryCheck hd.x hd.y (eatOrPop rx ry hd.x hd.y s)).snake = true →
      drawGame rx ry s =
        stopGame selfMsg
          { boundaryCheck hd.x hd.y (eatOrPop rx ry hd.x hd.y s) with
            snake := moveHead s.snakeDir hd.x hd.y ::
              (boundaryCheck hd.x hd.y (eatOrPop rx ry hd.x hd.y s)).snake }) ∧
    (collides (moveHead s.snakeDir hd.x hd.y)
        (boundaryCheck hd.x hd.y (eatOrPop rx ry hd.x hd.y s)).snake = false →
      drawGame rx ry s =
        { boundaryCheck hd.x hd.y (eatOrPop rx ry hd.x hd.y s) with
          snake := moveHead s.snakeDir hd.x hd.y ::
            (boundaryCheck hd.x hd.y (eatOrPop rx ry hd.x hd.y s)).snake }) := by
  rw [drawGame_eq rx ry s hd rest h,
      snakeStrikesSelf_spec _ (moveHead s.snakeDir hd.x hd.y)
        ((boundaryCheck hd.x hd.y (eatOrPop rx ry hd.x hd.y s)).snake) rfl]
  constructor
  · intro hc
    rw [hc]
    rfl
  · intro hc
    rw [hc]
    rfl

theorem C3_self_collision_iff_witness :
    exWallState.snake = ⟨0, 320⟩ :: [⟨32, 320⟩, ⟨64, 320⟩] ∧
    collides (moveHead exWallState.snakeDir 0 320)
      (boundaryCheck 0 320 (eatOrPop 0 0 0 320 exWallState)).snake = true ∧
    drawGame 0 0 exWallState =
      stopGame selfMsg
        { boundaryCheck 0 320 (eatOrPop 0 0 0 320 exWallState) with
          snake := moveHead exWallState.snakeDir 0 320 ::
            (boundaryCheck 0 320 (eatOrPop 0 0 0 320 exWallState)).snake } := by
  have hc : collides (moveHead exWallState.snakeDir 0 320)
      (boundaryCheck 0 320 (eatOrPop 0 0 0 320 exWallState)).snake = true := by decide
  exact ⟨by decide, hc,
    (C3_self_collision_iff 0 0 exWallState ⟨0, 320⟩ [⟨32, 320⟩, ⟨64, 320⟩]
      (by decide)).1 hc⟩

/-- C9: A wall collision detected mid-tick does not abort the tick: the
direction step is still applied and the new head is still prepended, the game
is stopped at the end of the tick, and the self-collision check still runs —
it overwrites the wall-death message exactly when the new head lands on a
non-head segment — so the game state is mutated after the transition to
stopped. -/
theorem C9_stop_does_not_abort (rx ry : ℚ) (s : GameState) (hd : Pos)
    (rest : List Pos) (h : s.snake = hd :: rest)
    (hw : wallHit hd.x hd.y = true) :
    (drawGame rx ry s).snake
        = moveHead s.snakeDir hd.x hd.y :: (eatOrPop rx ry hd.x hd.y s).snake ∧
    (drawGame rx ry s).game = false ∧
    (collides (moveHead s.snakeDir hd.x hd.y) (eatOrPop rx ry hd.x hd.y s).snake = true →
       (drawGame rx ry s).message = selfMsg) ∧
    (collides (moveHead s.snakeDir hd.x hd.y) (eatOrPop rx ry hd.x hd.y s).snake = false →
       (drawGame rx ry s).message = wallMsg) := by
  have hbc : boundaryCheck hd.x hd.y (eatOrPop rx ry hd.x hd.y s)
      = stopGame wallMsg (eatOrPop rx ry hd.x hd.y s) := by
    unfold boundaryCheck
    rw [hw]
    rfl
  refine ⟨drawGame_snake rx ry s hd rest h, ?_, ?_, ?_⟩
  · rw [drawGame_eq rx ry s hd rest h,
        snakeStrikesSelf_spec _ (moveHead s.snakeDir hd.x hd.y)
          ((boundaryCheck hd.x hd.y (eatOrPop rx ry hd.x hd.y s)).snake) rfl]
    split
    · simp
    · have hg : (boundaryCheck hd.x hd.y (eatOrPop rx ry hd.x hd.y s)).game = false := by
        rw [hbc]
        rfl
      exact hg
  · intro hc
    rw [drawGame_eq rx ry s hd rest h,
        snakeStrikesSelf_spec _ (moveHead s.snakeDir hd.x hd.y)
          ((boundaryCheck hd.x hd.y (eatOrPop rx ry hd.x hd.y s)).snake) rfl,
        boundaryCheck_snake, hc]
    rfl
  · intro hc
    rw [drawGame_eq rx ry s hd rest h,
        snakeStrikesSelf_spec _ (moveHead s.snakeDir hd.x hd.y)
          ((boundaryCheck hd.x hd.y (eatOrPop rx ry hd.x hd.y s)).snake) rfl,
        boundaryCheck_snake, hc]
    have hm : (boundaryCheck hd.x hd.y (eatOrPop rx ry hd.x hd.y s)).message = wallMsg := by
      rw [hbc]
      rfl
    exact hm

theorem C9_stop_does_not_abort_witness :
    exWallState.snake = ⟨0, 320⟩ :: [⟨32, 320⟩, ⟨64, 320⟩] ∧
    wallHit 0 320 = true ∧
    ((drawGame 0 0 exWallState).snake
        = moveHead exWallState.snakeDir 0 320 :: (eatOrPop 0 0 0 320 exWallState).snake ∧
     (drawGame 0 0 exWallState).game = false ∧
     (collides (moveHead exWallState.snakeDir 0 320)
         (eatOrPop 0 0 0 320 exWallState).snake = true →
        (drawGame 0 0 exWallState).message = selfMsg) ∧
     (collides (moveHead exWallState.snakeDir 0 320)
         (eatOrPop 0 0 0 320 exWallState).snake = false →
        (drawGame 0 0 exWallState).message = wallMsg)) :=
  ⟨by decide, by decide,
   C9_stop_does_not_abort 0 0 exWallState ⟨0, 320⟩ [⟨32, 320⟩, ⟨64, 320⟩]
     (by decide) (by decide)⟩

/-- C8: The snake starts as a single segment, keeps length ≥ 1 after every
event of any run (each tick removes at most the tail and always prepends the
new head), and on every tick the most recently computed head coordinate ends
up at index 0. -/
theorem C8_snake_invariant :
    (∀ rx0 ry0 : ℚ, 1 ≤ (initialState rx0 ry0).snake.length) ∧
    (∀ (es : List Event) (rx0 ry0 : ℚ),
        1 ≤ (run es (initialState rx0 ry0)).snake.length) ∧
    (∀ (rx ry : ℚ) (s : GameState) (hd : Pos) (rest : List Pos),
        s.snake = hd :: rest →
        (drawGame rx ry s).snake.head? = some (moveHead s.snakeDir hd.x hd.y) ∧
        1 ≤ (drawGame rx ry s).snake.length) := by
  refine ⟨?_, ?_, ?_⟩
  · intro rx0 ry0
    simp [initialState, initialSnake]
  · intro es rx0 ry0
    exact run_snake_len es _ (by simp [initialState, initialSnake])
  · intro rx ry s hd rest h
    rw [drawGame_snake rx ry s hd rest h]
    exact ⟨rfl, by simp⟩

theorem C8_snake_invariant_witness :
    exBaseState.snake = ⟨288, 320⟩ :: [] ∧
    ((drawGame 0 0 exBaseState).snake.head?
        = some (moveHead exBaseState.snakeDir 288 320) ∧
     1 ≤ (drawGame 0 0 exBaseState).snake.length) :=
  ⟨by decide, C8_snake_invariant.2.2 0 0 exBaseState ⟨288, 320⟩ [] (by decide)⟩

/-- C10: The score is monotonically non-decreasing over any sequence of
events (ticks, key presses, speed-slider restarts), and a speed-slider
restart preserves the accumulated score, the snake body and the direction. -/
theorem C10_score_monotone :
    (∀ (es : List Event) (s : GameState), s.score ≤ (run es s).score) ∧
    (∀ (v : ℤ) (f g : Bool) (s : GameState),
        (speedSliderOnChange v f g s).score = s.score ∧
        (speedSliderOnChange v f g s).snake = s.snake ∧
        (speedSliderOnChange v f g s).snakeDir = s.snakeDir) := by
  refine ⟨run_score_mono, ?_⟩
  intro v f g s
  exact ⟨speedSliderOnChange_score v f g s, speedSliderOnChange_snake v f g s,
         speedSliderOnChange_snakeDir v f g s⟩

/-- C4 (refuting evaluation): the claim says `stopGame` removes the keydown
listener so that arrow keys no longer change `snakeDir`.  In the source,
`keyDownListener` holds the return value of `addEventListener`, which is
`undefined`, so the `removeEventListener('keydown', keyDownListener)` call in
`stopGame` matches no registered listener.  Concretely: after
`stopGame("unknown")` the timer is indeed cleared, but the `direction`
handler is still registered and an ArrowUp keydown (keyCode 38) still changes
`snakeDir` from left to up. -/
theorem C4_keydown_listener_not_removed :
    (stopGame "unknown" exLeftState).game = false ∧
    (stopGame "unknown" exLeftState).keydownListeners = [directionListenerId] ∧
    (dispatchKeydown 38 (stopGame "unknown" exLeftState)).snakeDir = some Dir.up :=
  ⟨rfl, rfl, by decide⟩

end SnakeGame
